import Mathlib

/-!
# Verification of the `loki.rules.kubernetes` controller lifecycle

Shallow embedding of `internal/component/loki/rules/kubernetes/rules.go`:
the component state, the `init` / `startup` / `shutdown` helpers and the
`Run` loop (startup-retry phase followed by the select loop over config
updates, context cancellation and ticker events), together with the
`Update` request/response protocol and the `config_updates_total` metric.

External collaborators (the Kubernetes client libraries, the prometheus
operator client, the Loki client, the informer machinery, the dskit
backoff helper and the workqueue) are modelled as oracles: an `Env`
records, for each external call the Go code makes, whether that call
succeeds or which error it returns.  The sequencing, the field mutations
and the channel protocol are translated statement by statement from the
Go source.

Go semantics that the model makes explicit:
* `close` of an already-closed channel panics; panics are modelled by
  step functions returning `none` for the resulting state;
* a send on the unbuffered `update.err` channel delivers exactly one
  value to the blocked `Update` caller; sends are recorded in the
  observable action trace.
-/

/-- Modelled from the spec: the `Event` work item of the common
Kubernetes helper package (`internal/component/common/kubernetes`, not
in the excerpt): a tagged union that is either the full periodic sync
event (`eventTypeSyncLoki`) or a specific resource change carrying an
object key for deduplication. -/
inductive Event where
  | syncLoki : Event
  | resourceChanged (objectKey : String) : Event
deriving DecidableEq, Repr

/-- The errors the lifecycle code in `rules.go` can observe.  Each
constructor stands for the (possibly `fmt.Errorf`-wrapped) error value
produced at the corresponding call site; wrapping only changes the
message, not which failure is propagated. -/
inductive Err where
  | getConfigFailed : Err
  | k8sClientFailed : Err
  | promClientFailed : Err
  | lokiClientFailed : Err
  | badSelector (expr : String) : Err
  | nsInformerFailed : Err
  | ruleInformerFailed : Err
  | syncLokiFailed : Err
deriving DecidableEq, Repr

/-- Modelled from the spec and the field uses in `rules.go`: the
`Arguments` configuration value (declared in `types.go`, not in the
excerpt) — remote address and tenant, route flag, sync interval,
namespace selector expression and rule selector expression.  The HTTP
client settings are carried opaquely. -/
structure Arguments where
  address : String
  tenantID : String
  useLegacyRoutes : Bool
  httpClientConfig : String
  syncInterval : Nat
  ruleNamespaceSelector : String
  ruleSelector : String
deriving DecidableEq, Repr

/-- Oracle for the external calls one pass of `init`/`startup` makes:
each field records the outcome the external collaborator would return.
`parseSelector` stands for `commonK8s.ConvertSelectorToListOptions`,
which deterministically either compiles a selector expression or
rejects it. -/
structure Env where
  getConfigErr : Option Err
  k8sClientErr : Option Err
  promClientErr : Option Err
  lokiClientErr : Option Err
  parseSelector : String → Except Err String
  nsInformerErr : Option Err
  ruleInformerErr : Option Err
  syncLokiErr : Option Err

/-- The fields of the Go `Component` struct that the lifecycle code
reads or writes, plus the `config_updates_total` counter.
`stopChanOpen` is the state of `informerStopChan`: `true` while an
open (not yet closed) channel is installed, `false` once `shutdown`
has closed the installed channel. -/
structure CState where
  args : Arguments
  tickerInterval : Nat
  k8sClientSet : Bool
  promClientSet : Bool
  lokiClientSet : Bool
  namespaceSelector : Option String
  ruleSelector : Option String
  stopChanOpen : Bool
  queuePending : List Event
  queueShutDown : Bool
  eventLoopRunning : Bool
  currentState : List (String × List String)
  healthy : Bool
  configUpdatesTotal : Nat
deriving DecidableEq, Repr

/-- Observable steps of the lifecycle, in the order the Go code
performs them. `sendResult id r` is the send of result `r` on the
response channel of the update identified by `id`. -/
inductive Act where
  | incConfigUpdates : Act
  | closeStopChan : Act
  | shutDownDrainQueue : Act
  | setArgs (a : Arguments) : Act
  | tickerReset (interval : Nat) : Act
  | newQueue : Act
  | newStopChan : Act
  | startNSInformer : Act
  | waitNSCacheSync : Act
  | startRuleInformer : Act
  | waitRuleCacheSync : Act
  | syncLokiCall : Act
  | launchEventLoop : Act
  | reportUnhealthy (e : Err) : Act
  | sendResult (id : Nat) (r : Option Err) : Act
  | queueAdd (ev : Event) : Act
  | backoffWait (attempt : Nat) : Act
deriving DecidableEq, Repr

/-- `Component.init` (rules.go:245-289): get the rest config, build the
Kubernetes, prometheus-operator and Loki clients, reset the ticker to
the configured sync interval, and compile the two selectors; the first
failing step aborts, leaving the mutations already made in place.
Returns the mutated state, the emitted actions and the error, if any. -/
def initC (env : Env) (c : CState) : CState × List Act × Option Err :=
  match env.getConfigErr with
  | some _ => (c, [], some Err.getConfigFailed)
  | none =>
    match env.k8sClientErr with
    | some _ => (c, [], some Err.k8sClientFailed)
    | none =>
      match env.promClientErr with
      | some _ =>
        ({ c with k8sClientSet := true }, [], some Err.promClientFailed)
      | none =>
        match env.lokiClientErr with
        | some _ =>
          ({ c with k8sClientSet := true, promClientSet := true },
           [], some Err.lokiClientFailed)
        | none =>
          match env.parseSelector c.args.ruleNamespaceSelector with
          | Except.error e =>
            ({ c with k8sClientSet := true, promClientSet := true,
                      lokiClientSet := true,
                      tickerInterval := c.args.syncInterval },
             [Act.tickerReset c.args.syncInterval], some e)
          | Except.ok nsSel =>
            match env.parseSelector c.args.ruleSelector with
            | Except.error e =>
              ({ c with k8sClientSet := true, promClientSet := true,
                        lokiClientSet := true,
                        tickerInterval := c.args.syncInterval,
                        namespaceSelector := some nsSel },
               [Act.tickerReset c.args.syncInterval], some e)
            | Except.ok rSel =>
              ({ c with k8sClientSet := true, promClientSet := true,
                        lokiClientSet := true,
                        tickerInterval := c.args.syncInterval,
                        namespaceSelector := some nsSel,
                        ruleSelector := some rSel },
               [Act.tickerReset c.args.syncInterval], none)

/-- `Component.startup` (rules.go:213-229): create a fresh rate-limited
queue and a fresh open stop channel, start the namespace informer and
wait for its cache sync, start the rule informer and wait for its cache
sync, run one full sync against Loki, then launch the event loop
goroutine. The first failing step aborts. -/
def startupC (env : Env) (c : CState) : CState × List Act × Option Err :=
  match env.nsInformerErr with
  | some _ =>
    ({ c with queuePending := [], queueShutDown := false,
              stopChanOpen := true },
     [Act.newQueue, Act.newStopChan], some Err.nsInformerFailed)
  | none =>
    match env.ruleInformerErr with
    | some _ =>
      ({ c with queuePending := [], queueShutDown := false,
                stopChanOpen := true },
       [Act.newQueue, Act.newStopChan,
        Act.startNSInformer, Act.waitNSCacheSync],
       some Err.ruleInformerFailed)
    | none =>
      match env.syncLokiErr with
      | some _ =>
        ({ c with queuePending := [], queueShutDown := false,
                  stopChanOpen := true },
         [Act.newQueue, Act.newStopChan,
          Act.startNSInformer, Act.waitNSCacheSync,
          Act.startRuleInformer, Act.waitRuleCacheSync,
          Act.syncLokiCall],
         some Err.syncLokiFailed)
      | none =>
        ({ c with queuePending := [], queueShutDown := false,
                  stopChanOpen := true, eventLoopRunning := true },
         [Act.newQueue, Act.newStopChan,
          Act.startNSInformer, Act.waitNSCacheSync,
          Act.startRuleInformer, Act.waitRuleCacheSync,
          Act.syncLokiCall, Act.launchEventLoop],
         none)

/-- `Component.shutdown` (rules.go:231-234): `close(c.informerStopChan)`
then `c.queue.ShutDownWithDrain()`.  Closing an already-closed channel
panics in Go, modelled by `none`; draining stops the event loop and
empties the queue. -/
def shutdownC (c : CState) : Option (CState × List Act) :=
  if c.stopChanOpen then
    some ({ c with stopChanOpen := false, queueShutDown := true,
                   queuePending := [], eventLoopRunning := false },
          [Act.closeStopChan, Act.shutDownDrainQueue])
  else
    none

/-- `workqueue.Add` as used by the ticker arm: a no-op after shutdown,
deduplicating while the same item is pending. -/
def queueAddItem (ev : Event) (c : CState) : CState :=
  if c.queueShutDown then c
  else if ev ∈ c.queuePending then c
  else { c with queuePending := c.queuePending ++ [ev] }

/-- The `case update := <-c.configUpdates` arm of the `Run` select loop
(rules.go:179-200): increment `config_updates_total`, shut the current
generation down, install the new arguments, re-run `init`, and on
success re-run `startup`; send exactly one result on the update's
response channel — the error on failure (after reporting unhealthy),
`nil` on success.  `none` as resulting state means the arm panicked. -/
def handleUpdate (id : Nat) (a : Arguments) (env : Env) (c : CState) :
    List Act × Option CState :=
  let tr0 := [Act.incConfigUpdates]
  let c := { c with configUpdatesTotal := c.configUpdatesTotal + 1 }
  match shutdownC c with
  | none => (tr0, none)
  | some (c1, trS) =>
    let c2 := { c1 with args := a }
    let tr1 := tr0 ++ trS ++ [Act.setArgs a]
    match initC env c2 with
    | (c3, trI, some e) =>
      (tr1 ++ trI ++ [Act.reportUnhealthy e, Act.sendResult id (some e)],
       some { c3 with healthy := false })
    | (c3, trI, none) =>
      match startupC env c3 with
      | (c4, trU, some e) =>
        (tr1 ++ trI ++ trU ++
           [Act.reportUnhealthy e, Act.sendResult id (some e)],
         some { c4 with healthy := false })
      | (c4, trU, none) =>
        (tr1 ++ trI ++ trU ++ [Act.sendResult id none], some c4)

/-- The `case <-ctx.Done()` arm (rules.go:201-203): shut down and
return `nil`.  `none` means the shutdown panicked. -/
def handleDone (c : CState) : List Act × Option CState :=
  match shutdownC c with
  | none => ([], none)
  | some (c1, tr) => (tr, some c1)

/-- The `case <-c.ticker.C` arm (rules.go:204-208): add one
`eventTypeSyncLoki` event to the queue; nothing else. -/
def handleTick (c : CState) : List Act × CState :=
  ([Act.queueAdd Event.syncLoki], queueAddItem Event.syncLoki c)

/-- One input the select loop can receive.  A configuration update
carries the identifier of its dedicated response channel, the new
arguments, and the oracle for the external calls its processing makes. -/
inductive Msg where
  | update (id : Nat) (a : Arguments) (env : Env) : Msg
  | done : Msg
  | tick : Msg

/-- How a run of the select loop ends. -/
inductive LoopEnd where
  | running (c : CState)      -- inputs exhausted, loop still alive
  | returnedNil (c : CState)  -- ctx cancelled: `Run` returned `nil`
  | panicked                  -- a Go panic terminated the process
deriving DecidableEq, Repr

/-- The select loop of `Run` (rules.go:177-209), run over a finite
sequence of inputs: processes one input at a time, accumulating the
action trace; stops at a context cancellation or a panic. -/
def runLoop : List Msg → CState → List Act × LoopEnd
  | [], c => ([], LoopEnd.running c)
  | Msg.update id a env :: rest, c =>
    match handleUpdate id a env c with
    | (tr, none) => (tr, LoopEnd.panicked)
    | (tr, some c1) =>
      let r := runLoop rest c1
      (tr ++ r.1, r.2)
  | Msg.done :: _, c =>
    match handleDone c with
    | (tr, none) => (tr, LoopEnd.panicked)
    | (tr, some c1) => (tr, LoopEnd.returnedNil c1)
  | Msg.tick :: rest, c =>
    let (tr, c1) := handleTick c
    let r := runLoop rest c1
    (tr ++ r.1, r.2)

/-- The results delivered on the response channel of update `id`
within a trace, in order. -/
def sentResults (id : Nat) (tr : List Act) : List (Option Err) :=
  tr.filterMap fun a =>
    match a with
    | Act.sendResult i r => if i = id then some r else none
    | _ => none

/-- `Component.Update` (rules.go:236-243): make a response channel,
send the request, block on the channel; the value received is the first
(and only) result the loop sends on that channel. -/
def updateReturn (id : Nat) (tr : List Act) : Option (Option Err) :=
  (sentResults id tr).head?

/-- The `backoff.Config` literal passed to `backoff.New` in `Run`
(rules.go:159-166): `MinBackoff: 1 * time.Second`,
`MaxBackoff: 10 * time.Second`, `MaxRetries: 0 // infinite retries`.
Durations in milliseconds. -/
structure BackoffConfig where
  minBackoffMs : Nat
  maxBackoffMs : Nat
  maxRetries : Nat
deriving DecidableEq, Repr

def startupBackoffConfig : BackoffConfig :=
  { minBackoffMs := 1000, maxBackoffMs := 10000, maxRetries := 0 }

/-- Modelled from the spec: the nominal delay schedule of the external
exponential-backoff helper (`grafana/dskit/backoff`, an external
collaborator) under a given configuration — the delay starts at the
configured minimum and doubles on each retry, capped at the configured
maximum; a `maxRetries` of zero means no retry ceiling. -/
def backoffDelay (cfg : BackoffConfig) (attempt : Nat) : Nat :=
  min (cfg.minBackoffMs * 2 ^ attempt) cfg.maxBackoffMs

/-- The startup-retry phase of `Run` (rules.go:167-175): attempt
`startup`; on failure log, report unhealthy, wait out the backoff and
try again; on success break out to the select loop.  The list supplies
the oracle for each successive attempt (its length bounds how many
attempts we observe); `attempt` counts the failures so far. -/
def startupLoop : List Env → Nat → CState → List Act × Option CState
  | [], _, _ => ([], none)
  | env :: rest, attempt, c =>
    match startupC env c with
    | (c1, tr, none) => (tr, some c1)
    | (c1, tr, some e) =>
      let r := startupLoop rest (attempt + 1) { c1 with healthy := false }
      (tr ++ [Act.reportUnhealthy e, Act.backoffWait attempt] ++ r.1, r.2)

/-- `NewComponent` (rules.go:134-156): register the metrics, build the
component value (response channel, ticker at `args.SyncInterval`,
zeroed state), and call `init`; an `init` failure makes component
construction fail with a wrapped error.  Metrics registration is
assumed to succeed (its `Registerer` is an external collaborator). -/
def newComponent (env : Env) (a : Arguments) : Except Err CState :=
  let c0 : CState :=
    { args := a
      tickerInterval := a.syncInterval
      k8sClientSet := false
      promClientSet := false
      lokiClientSet := false
      namespaceSelector := none
      ruleSelector := none
      stopChanOpen := false
      queuePending := []
      queueShutDown := false
      eventLoopRunning := false
      currentState := []
      healthy := true
      configUpdatesTotal := 0 }
  match initC env c0 with
  | (_, _, some e) => Except.error e
  | (c1, _, none) => Except.ok c1

/-- The first error of `startup`, determined by the oracle alone
(rules.go:218-226 consult only external calls). -/
def startupErr (env : Env) : Option Err :=
  match env.nsInformerErr with
  | some _ => some Err.nsInformerFailed
  | none =>
    match env.ruleInformerErr with
    | some _ => some Err.ruleInformerFailed
    | none =>
      match env.syncLokiErr with
      | some _ => some Err.syncLokiFailed
      | none => none

/-- The client-construction failure of one pass of `init`, if any: the
first of the Kubernetes-client, prometheus-operator-client and
Loki-client build steps to fail (rules.go:254-274), given that the rest
config was obtained. -/
def clientConstructionErr (env : Env) : Option Err :=
  match env.getConfigErr with
  | some _ => none
  | none =>
    match env.k8sClientErr with
    | some _ => some Err.k8sClientFailed
    | none =>
      match env.promClientErr with
      | some _ => some Err.promClientFailed
      | none =>
        match env.lokiClientErr with
        | some _ => some Err.lokiClientFailed
        | none => none

/-- Number of `reportUnhealthy` actions in a trace. -/
def countUnhealthy (tr : List Act) : Nat :=
  (tr.filter fun a =>
    match a with
    | Act.reportUnhealthy _ => true
    | _ => false).length

/-- Number of `launchEventLoop` actions in a trace. -/
def countLaunch (tr : List Act) : Nat :=
  (tr.filter fun a =>
    match a with
    | Act.launchEventLoop => true
    | _ => false).length

/-- Number of `incConfigUpdates` actions in a trace. -/
def countInc (tr : List Act) : Nat :=
  (tr.filter fun a =>
    match a with
    | Act.incConfigUpdates => true
    | _ => false).length

/-- Number of `queueAdd` actions in a trace. -/
def countQueueAdd (tr : List Act) : Nat :=
  (tr.filter fun a =>
    match a with
    | Act.queueAdd _ => true
    | _ => false).length

/-- Number of `backoffWait` actions in a trace. -/
def countWait (tr : List Act) : Nat :=
  (tr.filter fun a =>
    match a with
    | Act.backoffWait _ => true
    | _ => false).length

/-- All results sent on any response channel in a trace, with their
channel identifiers, in order. -/
def allSentResults (tr : List Act) : List (Nat × Option Err) :=
  tr.filterMap fun a =>
    match a with
    | Act.sendResult i r => some (i, r)
    | _ => none

/-- The error one pass of `init` returns for arguments `a`, determined
by the oracle and the two selector expressions (rules.go:249-288). -/
def initErrOf (env : Env) (a : Arguments) : Option Err :=
  match env.getConfigErr with
  | some _ => some Err.getConfigFailed
  | none =>
    match env.k8sClientErr with
    | some _ => some Err.k8sClientFailed
    | none =>
      match env.promClientErr with
      | some _ => some Err.promClientFailed
      | none =>
        match env.lokiClientErr with
        | some _ => some Err.lokiClientFailed
        | none =>
          match env.parseSelector a.ruleNamespaceSelector with
          | Except.error e => some e
          | Except.ok _ =>
            match env.parseSelector a.ruleSelector with
            | Except.error e => some e
            | Except.ok _ => none

/-- The single result the update arm sends back for new arguments `a`:
the `init` error if `init` fails, otherwise the `startup` error if
`startup` fails, otherwise `nil`. -/
def updateResult (env : Env) (a : Arguments) : Option Err :=
  match initErrOf env a with
  | some e => some e
  | none => startupErr env

/-! ### Concrete fixtures used by witnesses and counterexamples -/

/-- A selector-expression parser: rejects the one malformed expression
used by the fixtures, accepts the rest (the concrete behaviour of
`ConvertSelectorToListOptions` on well-formed and malformed input). -/
def parseSelFixture : String → Except Err String := fun s =>
  if s = "@@bad" then Except.error (Err.badSelector s) else Except.ok s

def argsOk : Arguments :=
  { address := "http://loki:3100"
    tenantID := "team-a"
    useLegacyRoutes := false
    httpClientConfig := "default"
    syncInterval := 300
    ruleNamespaceSelector := "app=alloy"
    ruleSelector := "app=alloy" }

/-- New arguments whose namespace selector expression is malformed. -/
def argsBadSel : Arguments :=
  { argsOk with ruleNamespaceSelector := "@@bad", syncInterval := 60 }

/-- Arguments differing from `argsOk` only in the sync interval. -/
def argsOk2 : Arguments := { argsOk with syncInterval := 120 }

/-- An environment where every external call succeeds. -/
def envOk : Env :=
  { getConfigErr := none
    k8sClientErr := none
    promClientErr := none
    lokiClientErr := none
    parseSelector := parseSelFixture
    nsInformerErr := none
    ruleInformerErr := none
    syncLokiErr := none }

/-- Environment where building the Kubernetes client fails. -/
def envK8sFail : Env := { envOk with k8sClientErr := some Err.k8sClientFailed }

/-- Environment where starting the namespace informer fails. -/
def envNsFail : Env := { envOk with nsInformerErr := some Err.nsInformerFailed }

/-- The component state while `Run` is in its running phase with a live
generation: clients built, selectors compiled, stop channel open, queue
accepting, event loop consuming. -/
def liveState : CState :=
  { args := argsOk
    tickerInterval := 300
    k8sClientSet := true
    promClientSet := true
    lokiClientSet := true
    namespaceSelector := some "app=alloy"
    ruleSelector := some "app=alloy"
    stopChanOpen := true
    queuePending := []
    queueShutDown := false
    eventLoopRunning := true
    currentState := []
    healthy := true
    configUpdatesTotal := 0 }

/-! ## Theorems -/

/-- C7: every successful startup performs its steps in this order:
fresh queue and stop channel, namespace informer started and cache
synced, rule informer started and cache synced, one full sync against
the remote service, and only then the event loop launch; the resulting
state has the event loop running on a fresh open generation. -/
theorem C7_startup_order (env : Env) (c : CState)
    (h : startupErr env = none) :
    startupC env c =
      ({ c with queuePending := [], queueShutDown := false,
                stopChanOpen := true, eventLoopRunning := true },
       [Act.newQueue, Act.newStopChan,
        Act.startNSInformer, Act.waitNSCacheSync,
        Act.startRuleInformer, Act.waitRuleCacheSync,
        Act.syncLokiCall, Act.launchEventLoop], none) := by
  unfold startupErr at h
  unfold startupC
  cases hns : env.nsInformerErr with
  | some e => simp [hns] at h
  | none =>
    cases hr : env.ruleInformerErr with
    | some e => simp [hns, hr] at h
    | none =>
      cases hs : env.syncLokiErr with
      | some e => simp [hns, hr, hs] at h
      | none => simp [hns, hr, hs]

theorem C7_startup_order_witness :
    startupC envOk liveState =
      ({ liveState with queuePending := [], queueShutDown := false,
                        stopChanOpen := true, eventLoopRunning := true },
       [Act.newQueue, Act.newStopChan,
        Act.startNSInformer, Act.waitNSCacheSync,
        Act.startRuleInformer, Act.waitRuleCacheSync,
        Act.syncLokiCall, Act.launchEventLoop], none) :=
  C7_startup_order envOk liveState (by decide)

/-- C8: when the context is cancelled while the loop is running on a
live generation (open stop channel), `Run` closes the stop channel,
shuts down and drains the queue, returns `nil`, and performs no further
state mutation and no further processing: the trace is exactly the two
shutdown actions whatever inputs follow, and the resulting state
differs only in the shutdown-affected fields. -/
theorem C8_cancellation_clean_return (c : CState) (rest : List Msg)
    (h : c.stopChanOpen = true) :
    runLoop (Msg.done :: rest) c =
      ([Act.closeStopChan, Act.shutDownDrainQueue],
       LoopEnd.returnedNil
         { c with stopChanOpen := false, queueShutDown := true,
                  queuePending := [], eventLoopRunning := false }) := by
  unfold runLoop handleDone shutdownC
  simp [h]

theorem C8_cancellation_clean_return_witness :
    runLoop [Msg.done, Msg.tick] liveState =
      ([Act.closeStopChan, Act.shutDownDrainQueue],
       LoopEnd.returnedNil
         { liveState with stopChanOpen := false, queueShutDown := true,
                          queuePending := [], eventLoopRunning := false }) :=
  C8_cancellation_clean_return liveState [Msg.tick] (by decide)


/-! ### Shape lemmas for one pass of `init` and `startup` -/

theorem initC_err_eq (env : Env) (c : CState) :
    (initC env c).2.2 = initErrOf env c.args := by
  unfold initC initErrOf
  cases env.getConfigErr with
  | some e => rfl
  | none =>
    cases env.k8sClientErr with
    | some e => rfl
    | none =>
      cases env.promClientErr with
      | some e => rfl
      | none =>
        cases env.lokiClientErr with
        | some e => rfl
        | none =>
          cases env.parseSelector c.args.ruleNamespaceSelector with
          | error e => rfl
          | ok nsSel =>
            cases env.parseSelector c.args.ruleSelector with
            | error e => rfl
            | ok rSel => rfl

theorem initC_trace_shape (env : Env) (c : CState) :
    (initC env c).2.1 = [] ∨
      (initC env c).2.1 = [Act.tickerReset c.args.syncInterval] := by
  unfold initC
  cases env.getConfigErr <;>
    cases env.k8sClientErr <;>
    cases env.promClientErr <;>
    cases env.lokiClientErr <;>
    cases env.parseSelector c.args.ruleNamespaceSelector <;>
    cases env.parseSelector c.args.ruleSelector <;>
    simp

theorem initC_preserves (env : Env) (c : CState) :
    (initC env c).1.args = c.args ∧
    (initC env c).1.stopChanOpen = c.stopChanOpen ∧
    (initC env c).1.queueShutDown = c.queueShutDown ∧
    (initC env c).1.queuePending = c.queuePending ∧
    (initC env c).1.eventLoopRunning = c.eventLoopRunning ∧
    (initC env c).1.currentState = c.currentState ∧
    (initC env c).1.healthy = c.healthy ∧
    (initC env c).1.configUpdatesTotal = c.configUpdatesTotal := by
  unfold initC
  cases env.getConfigErr <;>
    cases env.k8sClientErr <;>
    cases env.promClientErr <;>
    cases env.lokiClientErr <;>
    cases env.parseSelector c.args.ruleNamespaceSelector <;>
    cases env.parseSelector c.args.ruleSelector <;>
    simp

theorem initC_success_ticker (env : Env) (c : CState) :
    (initC env c).2.2 = none →
      (initC env c).1.tickerInterval = c.args.syncInterval := by
  unfold initC
  cases env.getConfigErr <;>
    cases env.k8sClientErr <;>
    cases env.promClientErr <;>
    cases env.lokiClientErr <;>
    cases env.parseSelector c.args.ruleNamespaceSelector <;>
    cases env.parseSelector c.args.ruleSelector <;>
    simp

theorem startupC_err_eq (env : Env) (c : CState) :
    (startupC env c).2.2 = startupErr env := by
  unfold startupC startupErr
  cases env.nsInformerErr <;>
    cases env.ruleInformerErr <;>
    cases env.syncLokiErr <;>
    rfl

theorem startupC_state (env : Env) (c : CState) :
    (startupC env c).1 =
      if startupErr env = none then
        { c with queuePending := [], queueShutDown := false,
                 stopChanOpen := true, eventLoopRunning := true }
      else
        { c with queuePending := [], queueShutDown := false,
                 stopChanOpen := true } := by
  unfold startupC startupErr
  cases env.nsInformerErr <;>
    cases env.ruleInformerErr <;>
    cases env.syncLokiErr <;>
    simp

theorem startupC_none_trace (env : Env) (c : CState) :
    startupErr env = none →
      (startupC env c).2.1 =
        [Act.newQueue, Act.newStopChan,
         Act.startNSInformer, Act.waitNSCacheSync,
         Act.startRuleInformer, Act.waitRuleCacheSync,
         Act.syncLokiCall, Act.launchEventLoop] := by
  unfold startupErr startupC
  cases env.nsInformerErr <;>
    cases env.ruleInformerErr <;>
    cases env.syncLokiErr <;>
    simp

theorem startupC_trace_shape (env : Env) (c : CState) :
    (startupC env c).2.1 = [Act.newQueue, Act.newStopChan] ∨
    (startupC env c).2.1 =
      [Act.newQueue, Act.newStopChan,
       Act.startNSInformer, Act.waitNSCacheSync] ∨
    (startupC env c).2.1 =
      [Act.newQueue, Act.newStopChan,
       Act.startNSInformer, Act.waitNSCacheSync,
       Act.startRuleInformer, Act.waitRuleCacheSync,
       Act.syncLokiCall] ∨
    (startupC env c).2.1 =
      [Act.newQueue, Act.newStopChan,
       Act.startNSInformer, Act.waitNSCacheSync,
       Act.startRuleInformer, Act.waitRuleCacheSync,
       Act.syncLokiCall, Act.launchEventLoop] := by
  unfold startupC
  cases env.nsInformerErr <;>
    cases env.ruleInformerErr <;>
    cases env.syncLokiErr <;>
    simp

/-- Master characterization of the update arm on a live generation: it
completes without panic, delivers exactly one result — `updateResult`,
as its final action — installs the new arguments, bumps the counter,
opens with increment-shutdown, and ends up healthy-and-running exactly
when the result is `nil`. -/
theorem handleUpdate_spec (id : Nat) (a : Arguments) (env : Env) (c : CState)
    (h : c.stopChanOpen = true) :
    (∃ st', (handleUpdate id a env c).2 = some st' ∧
       st'.args = a ∧
       st'.configUpdatesTotal = c.configUpdatesTotal + 1 ∧
       (updateResult env a = none →
         st'.eventLoopRunning = true ∧ st'.healthy = c.healthy) ∧
       (updateResult env a ≠ none →
         st'.eventLoopRunning = false ∧ st'.healthy = false)) ∧
    sentResults id (handleUpdate id a env c).1 = [updateResult env a] ∧
    allSentResults (handleUpdate id a env c).1 = [(id, updateResult env a)] ∧
    (handleUpdate id a env c).1.getLast? =
      some (Act.sendResult id (updateResult env a)) ∧
    (handleUpdate id a env c).1.head? = some Act.incConfigUpdates ∧
    (handleUpdate id a env c).1.take 3 =
      [Act.incConfigUpdates, Act.closeStopChan, Act.shutDownDrainQueue] ∧
    countInc (handleUpdate id a env c).1 = 1 ∧
    countWait (handleUpdate id a env c).1 = 0 ∧
    countLaunch (handleUpdate id a env c).1 =
      (if updateResult env a = none then 1 else 0) := by
  unfold handleUpdate shutdownC updateResult initC startupC initErrOf startupErr
  cases hg : env.getConfigErr with
  | some e => simp [h, sentResults, allSentResults, countInc, countWait, countLaunch]
  | none =>
    cases hk : env.k8sClientErr with
    | some e => simp [h, sentResults, allSentResults, countInc, countWait, countLaunch]
    | none =>
      cases hp : env.promClientErr with
      | some e => simp [h, sentResults, allSentResults, countInc, countWait, countLaunch]
      | none =>
        cases hl : env.lokiClientErr with
        | some e => simp [h, sentResults, allSentResults, countInc, countWait, countLaunch]
        | none =>
          cases hn : env.parseSelector a.ruleNamespaceSelector with
          | error e => simp [h, hn, sentResults, allSentResults, countInc, countWait, countLaunch]
          | ok s1 =>
            cases hr : env.parseSelector a.ruleSelector with
            | error e => simp [h, hn, hr, sentResults, allSentResults, countInc, countWait, countLaunch]
            | ok s2 =>
              cases hns : env.nsInformerErr with
              | some e => simp [h, hn, hr, sentResults, allSentResults, countInc, countWait, countLaunch]
              | none =>
                cases hri : env.ruleInformerErr with
                | some e =>
                  simp [h, hn, hr, sentResults, allSentResults, countInc, countWait, countLaunch]
                | none =>
                  cases hsl : env.syncLokiErr with
                  | some e =>
                    simp [h, hn, hr, sentResults, allSentResults, countInc, countWait, countLaunch]
                  | none =>
                    simp [h, hn, hr, sentResults, allSentResults, countInc, countWait, countLaunch]

theorem countUnhealthy_append (l1 l2 : List Act) :
    countUnhealthy (l1 ++ l2) = countUnhealthy l1 + countUnhealthy l2 := by
  unfold countUnhealthy
  simp [List.filter_append]

theorem countWait_append (l1 l2 : List Act) :
    countWait (l1 ++ l2) = countWait l1 + countWait l2 := by
  unfold countWait
  simp [List.filter_append]

theorem countLaunch_append (l1 l2 : List Act) :
    countLaunch (l1 ++ l2) = countLaunch l1 + countLaunch l2 := by
  unfold countLaunch
  simp [List.filter_append]

theorem startupC_trace_counts (env : Env) (c : CState) :
    countUnhealthy (startupC env c).2.1 = 0 ∧
    countWait (startupC env c).2.1 = 0 ∧
    countLaunch (startupC env c).2.1 =
      (if startupErr env = none then 1 else 0) := by
  unfold startupC startupErr
  cases env.nsInformerErr <;>
    cases env.ruleInformerErr <;>
    cases env.syncLokiErr <;>
    simp [countUnhealthy, countWait, countLaunch]

theorem clientConstructionErr_updateResult (env : Env) (a : Arguments)
    (e : Err) :
    clientConstructionErr env = some e →
      initErrOf env a = some e ∧ updateResult env a = some e := by
  unfold clientConstructionErr updateResult initErrOf
  cases env.getConfigErr <;>
    cases env.k8sClientErr <;>
    cases env.promClientErr <;>
    cases env.lokiClientErr <;>
    simp

theorem newComponent_err (env : Env) (a : Arguments) (e : Err) :
    initErrOf env a = some e → newComponent env a = Except.error e := by
  unfold newComponent initC initErrOf
  cases env.getConfigErr <;>
    cases env.k8sClientErr <;>
    cases env.promClientErr <;>
    cases env.lokiClientErr <;>
    cases hn : env.parseSelector a.ruleNamespaceSelector <;>
    cases hr : env.parseSelector a.ruleSelector <;>
    simp [hn, hr]

/-- The facts about the startup-retry phase: with `envs.length` failing
attempts followed by a succeeding one, the loop reports unhealthy and
waits out a backoff once per failure, launches the event loop exactly
once — as the very last step — and ends with the event loop running. -/
theorem startupLoop_facts (envs : List Env) (envL : Env) (att : Nat)
    (c : CState)
    (hfail : ∀ e ∈ envs, startupErr e ≠ none)
    (hok : startupErr envL = none) :
    (∃ c', (startupLoop (envs ++ [envL]) att c).2 = some c' ∧
       c'.eventLoopRunning = true) ∧
    countUnhealthy (startupLoop (envs ++ [envL]) att c).1 = envs.length ∧
    countWait (startupLoop (envs ++ [envL]) att c).1 = envs.length ∧
    countLaunch (startupLoop (envs ++ [envL]) att c).1 = 1 ∧
    (startupLoop (envs ++ [envL]) att c).1.getLast? =
      some Act.launchEventLoop := by
  induction envs generalizing att c with
  | nil =>
    simp only [List.nil_append]
    unfold startupLoop
    rcases hU : startupC envL c with ⟨c1, trU, rU⟩
    have her : rU = none := by
      have h2 := startupC_err_eq envL c
      rw [hU] at h2
      simpa [hok] using h2
    subst her
    have htr : trU =
        [Act.newQueue, Act.newStopChan,
         Act.startNSInformer, Act.waitNSCacheSync,
         Act.startRuleInformer, Act.waitRuleCacheSync,
         Act.syncLokiCall, Act.launchEventLoop] := by
      have h3 := startupC_none_trace envL c hok
      rw [hU] at h3
      simpa using h3
    have hst : c1.eventLoopRunning = true := by
      have h4 := startupC_state envL c
      rw [hU] at h4
      simp only [hok, if_pos] at h4
      simp [h4]
    subst htr
    refine ⟨⟨c1, rfl, hst⟩, ?_, ?_, ?_, ?_⟩ <;>
      simp [countUnhealthy, countWait, countLaunch]
  | cons e0 es ih =>
    obtain ⟨e', he'⟩ : ∃ e', startupErr e0 = some e' := by
      rcases hval : startupErr e0 with _ | x
      · exact absurd hval (hfail e0 (List.mem_cons_self e0 es))
      · exact ⟨x, rfl⟩
    simp only [List.cons_append]
    unfold startupLoop
    rcases hU : startupC e0 c with ⟨c1, trU, rU⟩
    have her : rU = some e' := by
      have h2 := startupC_err_eq e0 c
      rw [hU] at h2
      simpa [he'] using h2
    subst her
    have hcounts := startupC_trace_counts e0 c
    rw [hU] at hcounts
    simp only [he'] at hcounts
    obtain ⟨hcu, hcw, hcl⟩ := hcounts
    have hrec := ih (att + 1) { c1 with healthy := false }
      (fun e he => hfail e (List.mem_cons_of_mem e0 he))
    obtain ⟨⟨c', hc', hev⟩, hru, hrw, hrl, hrlast⟩ := hrec
    have hne : (startupLoop (es ++ [envL]) (att + 1)
        { c1 with healthy := false }).1 ≠ [] := by
      intro hemp
      rw [hemp] at hrl
      simp [countLaunch] at hrl
    refine ⟨⟨c', ?_, hev⟩, ?_, ?_, ?_, ?_⟩
    · simpa using hc'
    · simp only [countUnhealthy_append, hcu, hru,
        List.length_cons]
      simp [countUnhealthy]
      omega
    · simp only [countWait_append, hcw, hrw, List.length_cons]
      simp [countWait]
      omega
    · simp only [countLaunch_append, hcl, hrl]
      simp [countLaunch]
    · rw [List.getLast?_append_of_ne_nil _ hne, hrlast]

/-- C9: on every ticker tick the run loop enqueues exactly one
full-sync event onto the event queue and mutates no other state — in
particular not the current rule-group state; and the ticker's period is
the configured sync interval: a successfully applied configuration
resets the ticker to its sync interval. -/
theorem C9_tick_enqueues_one_full_sync (c : CState) (rest : List Msg)
    (env : Env) :
    (handleTick c).1 = [Act.queueAdd Event.syncLoki] ∧
    countQueueAdd (handleTick c).1 = 1 ∧
    (handleTick c).2.currentState = c.currentState ∧
    (handleTick c).2.args = c.args ∧
    (handleTick c).2.tickerInterval = c.tickerInterval ∧
    (handleTick c).2.stopChanOpen = c.stopChanOpen ∧
    (handleTick c).2.queueShutDown = c.queueShutDown ∧
    (handleTick c).2.eventLoopRunning = c.eventLoopRunning ∧
    (handleTick c).2.healthy = c.healthy ∧
    (handleTick c).2.configUpdatesTotal = c.configUpdatesTotal ∧
    (runLoop (Msg.tick :: rest) c).1 =
      Act.queueAdd Event.syncLoki ::
        (runLoop rest (queueAddItem Event.syncLoki c)).1 ∧
    ((initC env c).2.2 = none →
      (initC env c).1.tickerInterval = c.args.syncInterval) := by
  refine ⟨rfl, rfl, ?_, ?_, ?_, ?_, ?_, ?_, ?_, ?_, rfl,
    initC_success_ticker env c⟩
  all_goals
    unfold handleTick queueAddItem
    by_cases hq : c.queueShutDown <;>
      by_cases hm : Event.syncLoki ∈ c.queuePending <;>
      simp [hq, hm]

theorem C9_tick_enqueues_one_full_sync_witness :
    (handleTick liveState).1 = [Act.queueAdd Event.syncLoki] ∧
    countQueueAdd (handleTick liveState).1 = 1 ∧
    (handleTick liveState).2.currentState = liveState.currentState ∧
    (handleTick liveState).2.args = liveState.args ∧
    (handleTick liveState).2.tickerInterval = liveState.tickerInterval ∧
    (handleTick liveState).2.stopChanOpen = liveState.stopChanOpen ∧
    (handleTick liveState).2.queueShutDown = liveState.queueShutDown ∧
    (handleTick liveState).2.eventLoopRunning = liveState.eventLoopRunning ∧
    (handleTick liveState).2.healthy = liveState.healthy ∧
    (handleTick liveState).2.configUpdatesTotal
      = liveState.configUpdatesTotal ∧
    (runLoop [Msg.tick] liveState).1 =
      Act.queueAdd Event.syncLoki ::
        (runLoop [] (queueAddItem Event.syncLoki liveState)).1 ∧
    ((initC envOk liveState).2.2 = none →
      (initC envOk liveState).1.tickerInterval
        = liveState.args.syncInterval) :=
  C9_tick_enqueues_one_full_sync liveState [] envOk

/-- C10: every configuration update received by the run loop increments
`config_updates_total` exactly once, as the very first action of the
update arm — before the old generation is shut down and before the new
configuration is validated — regardless of whether the update later
succeeds or fails; whenever the arm completes the stored counter has
grown by exactly one. -/
theorem C10_config_updates_counter (id : Nat) (a : Arguments) (env : Env)
    (c : CState) :
    countInc (handleUpdate id a env c).1 = 1 ∧
    (handleUpdate id a env c).1.head? = some Act.incConfigUpdates ∧
    ∀ st', (handleUpdate id a env c).2 = some st' →
      st'.configUpdatesTotal = c.configUpdatesTotal + 1 := by
  by_cases h : c.stopChanOpen
  · obtain ⟨⟨st', hst, _, hcnt, _⟩, _, _, _, hhead, _, hcount, _, _⟩ :=
      handleUpdate_spec id a env c h
    refine ⟨hcount, hhead, fun st'' hst'' => ?_⟩
    rw [hst] at hst''
    injection hst'' with he
    rw [← he]
    exact hcnt
  · unfold handleUpdate shutdownC
    simp only [Bool.not_eq_true] at h
    simp [h, countInc]

theorem C10_config_updates_counter_witness :
    countInc (handleUpdate 1 argsOk2 envOk liveState).1 = 1 ∧
    (handleUpdate 1 argsOk2 envOk liveState).1.head?
      = some Act.incConfigUpdates ∧
    ∀ st', (handleUpdate 1 argsOk2 envOk liveState).2 = some st' →
      st'.configUpdatesTotal = liveState.configUpdatesTotal + 1 :=
  C10_config_updates_counter 1 argsOk2 envOk liveState

/-- C4: updates are fully serialized by the single-consumer loop: while
an update is being processed, exactly one result is sent — on that
update's own channel, as the final action of its processing — so any
action belonging to a later message appears strictly after that
delivery, and the blocked `Update` caller receives exactly that
result. -/
theorem C4_updates_serialized (id : Nat) (a : Arguments) (env : Env)
    (c c' : CState) (tr : List Act) (rest : List Msg)
    (h : handleUpdate id a env c = (tr, some c')) :
    allSentResults tr = [(id, updateResult env a)] ∧
    tr.getLast? = some (Act.sendResult id (updateResult env a)) ∧
    updateReturn id tr = some (updateResult env a) ∧
    runLoop (Msg.update id a env :: rest) c =
      (tr ++ (runLoop rest c').1, (runLoop rest c').2) := by
  have hlive : c.stopChanOpen = true := by
    by_contra hn
    simp only [Bool.not_eq_true] at hn
    unfold handleUpdate shutdownC at h
    simp [hn] at h
  obtain ⟨_, hsent, hall, hlast, _, _, _⟩ := handleUpdate_spec id a env c hlive
  rw [h] at hsent hall hlast
  simp only at hsent hall hlast
  refine ⟨hall, hlast, ?_, ?_⟩
  · unfold updateReturn
    rw [hsent]
    rfl
  · simp only [runLoop, h]

theorem C4_updates_serialized_witness :
    handleUpdate 1 argsOk2 envOk liveState =
      ([Act.incConfigUpdates, Act.closeStopChan, Act.shutDownDrainQueue,
        Act.setArgs argsOk2, Act.tickerReset 120,
        Act.newQueue, Act.newStopChan,
        Act.startNSInformer, Act.waitNSCacheSync,
        Act.startRuleInformer, Act.waitRuleCacheSync,
        Act.syncLokiCall, Act.launchEventLoop,
        Act.sendResult 1 none],
       some { liveState with args := argsOk2, tickerInterval := 120,
                             configUpdatesTotal := 1 }) ∧
    (allSentResults [Act.incConfigUpdates, Act.closeStopChan,
        Act.shutDownDrainQueue, Act.setArgs argsOk2, Act.tickerReset 120,
        Act.newQueue, Act.newStopChan,
        Act.startNSInformer, Act.waitNSCacheSync,
        Act.startRuleInformer, Act.waitRuleCacheSync,
        Act.syncLokiCall, Act.launchEventLoop, Act.sendResult 1 none] =
       [(1, updateResult envOk argsOk2)] ∧
     [Act.incConfigUpdates, Act.closeStopChan,
        Act.shutDownDrainQueue, Act.setArgs argsOk2, Act.tickerReset 120,
        Act.newQueue, Act.newStopChan,
        Act.startNSInformer, Act.waitNSCacheSync,
        Act.startRuleInformer, Act.waitRuleCacheSync,
        Act.syncLokiCall, Act.launchEventLoop,
        Act.sendResult 1 none].getLast? =
       some (Act.sendResult 1 (updateResult envOk argsOk2)) ∧
     updateReturn 1 [Act.incConfigUpdates, Act.closeStopChan,
        Act.shutDownDrainQueue, Act.setArgs argsOk2, Act.tickerReset 120,
        Act.newQueue, Act.newStopChan,
        Act.startNSInformer, Act.waitNSCacheSync,
        Act.startRuleInformer, Act.waitRuleCacheSync,
        Act.syncLokiCall, Act.launchEventLoop, Act.sendResult 1 none] =
       some (updateResult envOk argsOk2) ∧
     runLoop [Msg.update 1 argsOk2 envOk, Msg.done] liveState =
       ([Act.incConfigUpdates, Act.closeStopChan,
         Act.shutDownDrainQueue, Act.setArgs argsOk2, Act.tickerReset 120,
         Act.newQueue, Act.newStopChan,
         Act.startNSInformer, Act.waitNSCacheSync,
         Act.startRuleInformer, Act.waitRuleCacheSync,
         Act.syncLokiCall, Act.launchEventLoop, Act.sendResult 1 none] ++
          (runLoop [Msg.done]
            { liveState with args := argsOk2, tickerInterval := 120,
                             configUpdatesTotal := 1 }).1,
        (runLoop [Msg.done]
          { liveState with args := argsOk2, tickerInterval := 120,
                           configUpdatesTotal := 1 }).2)) :=
  ⟨by rfl,
   C4_updates_serialized 1 argsOk2 envOk liveState
     { liveState with args := argsOk2, tickerInterval := 120,
                      configUpdatesTotal := 1 }
     [Act.incConfigUpdates, Act.closeStopChan, Act.shutDownDrainQueue,
      Act.setArgs argsOk2, Act.tickerReset 120,
      Act.newQueue, Act.newStopChan,
      Act.startNSInformer, Act.waitNSCacheSync,
      Act.startRuleInformer, Act.waitRuleCacheSync,
      Act.syncLokiCall, Act.launchEventLoop, Act.sendResult 1 none]
     [Msg.done] (by rfl)⟩

/-- C1 (evaluated at the failing input): after an update whose `init`
fails (malformed namespace selector), the next update arm panics while
closing the already-closed informer stop channel, so the run loop never
sends any result on the second update's response channel — the first
update got exactly its error, the second gets nothing and its blocked
`Update` caller never returns. -/
theorem C1_second_update_gets_no_result :
    (runLoop [Msg.update 1 argsBadSel envOk, Msg.update 2 argsOk2 envOk]
        liveState).2 = LoopEnd.panicked ∧
    sentResults 2 (runLoop [Msg.update 1 argsBadSel envOk,
        Msg.update 2 argsOk2 envOk] liveState).1 = [] ∧
    sentResults 1 (runLoop [Msg.update 1 argsBadSel envOk,
        Msg.update 2 argsOk2 envOk] liveState).1 =
      [some (Err.badSelector "@@bad")] :=
  ⟨by rfl, by rfl, by rfl⟩

/-- C3 (evaluated at the failing input): shutdown is not always safe at
the points the loop invokes it — after a configuration update whose
`init` failed, the stop channel is already closed, so the shutdown
performed on context cancellation closes a closed channel and the
process panics instead of returning `nil`. -/
theorem C3_shutdown_after_failed_update_panics :
    (runLoop [Msg.update 1 argsBadSel envOk, Msg.done] liveState).2 =
      LoopEnd.panicked ∧
    (handleUpdate 1 argsBadSel envOk liveState).2.map shutdownC =
      some none :=
  ⟨by rfl, by rfl⟩

/-- C2 (counterexample): for the failing update `argsBadSel` processed
from a live generation, the error is surfaced synchronously, but the
controller does not stay on the prior generation: the stop channel is
closed, the queue is shut down, the event loop is stopped, and the new
(not the previous) arguments are in effect. -/
theorem C2_counterexample :
    sentResults 1 (handleUpdate 1 argsBadSel envOk liveState).1 =
      [some (Err.badSelector "@@bad")] ∧
    ((handleUpdate 1 argsBadSel envOk liveState).2.map fun st =>
        (st.stopChanOpen, st.queueShutDown, st.eventLoopRunning, st.args)) =
      some (false, true, false, argsBadSel) ∧
    argsBadSel ≠ liveState.args :=
  ⟨by rfl, by rfl, by decide⟩

/-- C2 (amended): for every configuration update that fails, the error
is surfaced synchronously to the reconfiguration caller — exactly one
result, the error, is sent and returned — but the controller does not
stay on the prior generation: the prior generation is shut down (stop
channel closed, queue drained) before the new configuration is
attempted, the new arguments replace the previous ones even on failure,
the component is marked unhealthy, and no event loop is running
afterwards. -/
theorem C2_failed_update_surfaces_error_but_loses_generation
    (id : Nat) (a : Arguments) (env : Env) (c : CState) (e : Err)
    (hlive : c.stopChanOpen = true)
    (hfail : updateResult env a = some e) :
    sentResults id (handleUpdate id a env c).1 = [some e] ∧
    updateReturn id (handleUpdate id a env c).1 = some (some e) ∧
    (handleUpdate id a env c).1.take 3 =
      [Act.incConfigUpdates, Act.closeStopChan, Act.shutDownDrainQueue] ∧
    ∃ st', (handleUpdate id a env c).2 = some st' ∧
      st'.args = a ∧ st'.eventLoopRunning = false ∧ st'.healthy = false := by
  obtain ⟨⟨st', hst, hargs, _, _, hbad⟩, hsent, _, _, _, htake, _⟩ :=
    handleUpdate_spec id a env c hlive
  rw [hfail] at hsent
  obtain ⟨hev, hh⟩ := hbad (by rw [hfail]; exact Option.some_ne_none e)
  refine ⟨hsent, ?_, htake, st', hst, hargs, hev, hh⟩
  unfold updateReturn
  rw [hsent]
  rfl

theorem C2_failed_update_witness :
    liveState.stopChanOpen = true ∧
    updateResult envOk argsBadSel = some (Err.badSelector "@@bad") ∧
    (sentResults 1 (handleUpdate 1 argsBadSel envOk liveState).1 =
       [some (Err.badSelector "@@bad")] ∧
     updateReturn 1 (handleUpdate 1 argsBadSel envOk liveState).1 =
       some (some (Err.badSelector "@@bad")) ∧
     (handleUpdate 1 argsBadSel envOk liveState).1.take 3 =
       [Act.incConfigUpdates, Act.closeStopChan, Act.shutDownDrainQueue] ∧
     ∃ st', (handleUpdate 1 argsBadSel envOk liveState).2 = some st' ∧
       st'.args = argsBadSel ∧ st'.eventLoopRunning = false ∧
       st'.healthy = false) :=
  ⟨rfl, by rfl,
   C2_failed_update_surfaces_error_but_loses_generation
     1 argsBadSel envOk liveState (Err.badSelector "@@bad") rfl (by rfl)⟩

/-- C6 (counterexample): a failure to build the cluster client during
component construction is fatal to the component: `NewComponent`
returns an error and the component does not exist, contradicting
"client-construction failure does not prevent the component from
existing and eventually retrying". -/
theorem C6_counterexample :
    newComponent envK8sFail argsOk = Except.error Err.k8sClientFailed :=
  by rfl

/-- C6 (amended): a failure to build the cluster client or the remote
rule-service client is never retried with backoff: at component
construction it makes `NewComponent` fail with the error (the component
is not created); during a configuration update it is reported unhealthy
and surfaced synchronously to the caller exactly once, with no backoff
wait and no event-loop launch — only the informer/sync startup
sequence, not client construction, is retried with backoff at `Run`
entry. -/
theorem C6_client_construction_failure_is_fatal_or_surfaced
    (env : Env) (a : Arguments) (e : Err)
    (h : clientConstructionErr env = some e) :
    newComponent env a = Except.error e ∧
    ∀ id c, c.stopChanOpen = true →
      sentResults id (handleUpdate id a env c).1 = [some e] ∧
      countWait (handleUpdate id a env c).1 = 0 ∧
      countLaunch (handleUpdate id a env c).1 = 0 ∧
      ∃ st', (handleUpdate id a env c).2 = some st' ∧
        st'.healthy = false ∧ st'.eventLoopRunning = false := by
  obtain ⟨hinit, hupd⟩ := clientConstructionErr_updateResult env a e h
  refine ⟨newComponent_err env a e hinit, fun id c hlive => ?_⟩
  obtain ⟨⟨st', hst, _, _, _, hbad⟩, hsent, _, _, _, _, _, hwait, hlaunch⟩ :=
    handleUpdate_spec id a env c hlive
  rw [hupd] at hsent hlaunch
  obtain ⟨hev, hh⟩ := hbad (by rw [hupd]; exact Option.some_ne_none e)
  exact ⟨hsent, hwait, by simpa using hlaunch, st', hst, hh, hev⟩

theorem C6_client_construction_failure_witness :
    clientConstructionErr envK8sFail = some Err.k8sClientFailed ∧
    liveState.stopChanOpen = true ∧
    (newComponent envK8sFail argsOk = Except.error Err.k8sClientFailed ∧
     sentResults 1 (handleUpdate 1 argsOk envK8sFail liveState).1 =
       [some Err.k8sClientFailed] ∧
     countWait (handleUpdate 1 argsOk envK8sFail liveState).1 = 0 ∧
     countLaunch (handleUpdate 1 argsOk envK8sFail liveState).1 = 0 ∧
     ∃ st', (handleUpdate 1 argsOk envK8sFail liveState).2 = some st' ∧
       st'.healthy = false ∧ st'.eventLoopRunning = false) :=
  ⟨by rfl, rfl,
   let h := C6_client_construction_failure_is_fatal_or_surfaced
     envK8sFail argsOk Err.k8sClientFailed (by rfl)
   ⟨h.1, h.2 1 liveState rfl⟩⟩

/-- C5: when `Run` begins, startup failures are retried with
exponential backoff — the configuration passed to the backoff helper
has a 1-second minimum delay, a 10-second capped maximum and no retry
ceiling (`MaxRetries = 0`), and every delay of the schedule stays
within those bounds — the component is reported unhealthy once per
failed attempt, one backoff wait separates consecutive attempts, and
the event loop is launched exactly once, as the very last step, only
after a startup attempt succeeds. -/
theorem C5_startup_retries_with_backoff (envs : List Env) (envL : Env)
    (c : CState)
    (hfail : ∀ e ∈ envs, startupErr e ≠ none)
    (hok : startupErr envL = none) :
    (∃ c', (startupLoop (envs ++ [envL]) 0 c).2 = some c' ∧
       c'.eventLoopRunning = true) ∧
    countUnhealthy (startupLoop (envs ++ [envL]) 0 c).1 = envs.length ∧
    countWait (startupLoop (envs ++ [envL]) 0 c).1 = envs.length ∧
    countLaunch (startupLoop (envs ++ [envL]) 0 c).1 = 1 ∧
    (startupLoop (envs ++ [envL]) 0 c).1.getLast? =
      some Act.launchEventLoop ∧
    startupBackoffConfig.minBackoffMs = 1000 ∧
    startupBackoffConfig.maxBackoffMs = 10000 ∧
    startupBackoffConfig.maxRetries = 0 ∧
    ∀ n, 1000 ≤ backoffDelay startupBackoffConfig n ∧
      backoffDelay startupBackoffConfig n ≤ 10000 := by
  obtain ⟨h1, h2, h3, h4, h5⟩ := startupLoop_facts envs envL 0 c hfail hok
  refine ⟨h1, h2, h3, h4, h5, rfl, rfl, rfl, fun n => ⟨?_, ?_⟩⟩
  · unfold backoffDelay startupBackoffConfig
    refine Nat.le_min.mpr ⟨?_, by norm_num⟩
    calc 1000 = 1000 * 1 := (Nat.mul_one 1000).symm
    _ ≤ 1000 * 2 ^ n := Nat.mul_le_mul_left 1000 (Nat.one_le_two_pow)
  · unfold backoffDelay startupBackoffConfig
    exact Nat.min_le_right _ _

theorem C5_startup_retries_with_backoff_witness :
    (∀ e ∈ [envNsFail], startupErr e ≠ none) ∧
    startupErr envOk = none ∧
    ((∃ c', (startupLoop ([envNsFail] ++ [envOk]) 0 liveState).2 = some c' ∧
        c'.eventLoopRunning = true) ∧
     countUnhealthy (startupLoop ([envNsFail] ++ [envOk]) 0 liveState).1
       = [envNsFail].length ∧
     countWait (startupLoop ([envNsFail] ++ [envOk]) 0 liveState).1
       = [envNsFail].length ∧
     countLaunch (startupLoop ([envNsFail] ++ [envOk]) 0 liveState).1 = 1 ∧
     (startupLoop ([envNsFail] ++ [envOk]) 0 liveState).1.getLast? =
       some Act.launchEventLoop ∧
     startupBackoffConfig.minBackoffMs = 1000 ∧
     startupBackoffConfig.maxBackoffMs = 10000 ∧
     startupBackoffConfig.maxRetries = 0 ∧
     ∀ n, 1000 ≤ backoffDelay startupBackoffConfig n ∧
       backoffDelay startupBackoffConfig n ≤ 10000) :=
  ⟨by intro e he; rcases List.mem_singleton.mp he with rfl; decide,
   by decide,
   C5_startup_retries_with_backoff [envNsFail] envOk liveState
     (by intro e he; rcases List.mem_singleton.mp he with rfl; decide)
     (by decide)⟩
